import Mathlib

/-!
Verification of the ZMQ gym proxy (src/gym/envs/proxy/server.py and
src/gym/envs/proxy/client.py) against its natural-language specification.

The server (`GymProxyZmqServer`) is embedded as a pure state machine over
`ServerState`; Python exceptions are modelled with `Except PyExc`, and the
dynamically-typed RPC payloads with the tagged `Value` type.  The client
(`GymProxyClient`) is embedded as a function of an abstract server oracle
`RpcRequest → RpcReply`, recording the requests it sends.
-/

namespace GymProxy

/-- ASCII apostrophe, used to build Python-style error messages without
writing an apostrophe character in a string literal. -/
def sq : String := String.singleton (Char.ofNat 39)

/-- A Python exception: class name and message, as observed by
`sys.exc_info()` in `handle_msg`. -/
structure PyExc where
  ty : String
  msg : String
deriving DecidableEq

/-- Dynamically-typed RPC payload values (the JSON-compatible value graph
moved by `zmq_serialize`).  Arrays/tensors are opaque to the session
protocol and are representable as `list`/`str` leaves. -/
inductive Value where
  | null
  | bool (b : Bool)
  | int (n : Int)
  | str (s : String)
  | list (xs : List Value)
  | dict (xs : List (String × Value))

mutual

/-- Structural equality test on payload values. -/
def Value.beq : Value → Value → Bool
  | .null, .null => true
  | .bool a, .bool b => a == b
  | .int a, .int b => a == b
  | .str a, .str b => a == b
  | .list xs, .list ys => Value.beqL xs ys
  | .dict xs, .dict ys => Value.beqD xs ys
  | _, _ => false

/-- Structural equality test on value lists. -/
def Value.beqL : List Value → List Value → Bool
  | [], [] => true
  | a :: as, b :: bs => Value.beq a b && Value.beqL as bs
  | _, _ => false

/-- Structural equality test on string-keyed value maps. -/
def Value.beqD : List (String × Value) → List (String × Value) → Bool
  | [], [] => true
  | (k, a) :: as, (l, b) :: bs => k == l && Value.beq a b && Value.beqD as bs
  | _, _ => false

end

mutual

/-- Soundness of `Value.beq`. -/
theorem Value.beq_eq : ∀ (a b : Value), Value.beq a b = true → a = b
  | .null, .null, _ => rfl
  | .bool a, .bool b, h => by simp [Value.beq] at h; rw [h]
  | .int a, .int b, h => by simp [Value.beq] at h; rw [h]
  | .str a, .str b, h => by simp [Value.beq] at h; rw [h]
  | .list xs, .list ys, h => by rw [Value.beqL_eq xs ys (by simpa [Value.beq] using h)]
  | .dict xs, .dict ys, h => by rw [Value.beqD_eq xs ys (by simpa [Value.beq] using h)]
  | .null, .bool _, h => by simp [Value.beq] at h
  | .null, .int _, h => by simp [Value.beq] at h
  | .null, .str _, h => by simp [Value.beq] at h
  | .null, .list _, h => by simp [Value.beq] at h
  | .null, .dict _, h => by simp [Value.beq] at h
  | .bool _, .null, h => by simp [Value.beq] at h
  | .bool _, .int _, h => by simp [Value.beq] at h
  | .bool _, .str _, h => by simp [Value.beq] at h
  | .bool _, .list _, h => by simp [Value.beq] at h
  | .bool _, .dict _, h => by simp [Value.beq] at h
  | .int _, .null, h => by simp [Value.beq] at h
  | .int _, .bool _, h => by simp [Value.beq] at h
  | .int _, .str _, h => by simp [Value.beq] at h
  | .int _, .list _, h => by simp [Value.beq] at h
  | .int _, .dict _, h => by simp [Value.beq] at h
  | .str _, .null, h => by simp [Value.beq] at h
  | .str _, .bool _, h => by simp [Value.beq] at h
  | .str _, .int _, h => by simp [Value.beq] at h
  | .str _, .list _, h => by simp [Value.beq] at h
  | .str _, .dict _, h => by simp [Value.beq] at h
  | .list _, .null, h => by simp [Value.beq] at h
  | .list _, .bool _, h => by simp [Value.beq] at h
  | .list _, .int _, h => by simp [Value.beq] at h
  | .list _, .str _, h => by simp [Value.beq] at h
  | .list _, .dict _, h => by simp [Value.beq] at h
  | .dict _, .null, h => by simp [Value.beq] at h
  | .dict _, .bool _, h => by simp [Value.beq] at h
  | .dict _, .int _, h => by simp [Value.beq] at h
  | .dict _, .str _, h => by simp [Value.beq] at h
  | .dict _, .list _, h => by simp [Value.beq] at h

/-- Soundness of `Value.beqL`. -/
theorem Value.beqL_eq : ∀ (xs ys : List Value), Value.beqL xs ys = true → xs = ys
  | [], [], _ => rfl
  | a :: as, b :: bs, h => by
      simp only [Value.beqL, Bool.and_eq_true] at h
      rw [Value.beq_eq a b h.1, Value.beqL_eq as bs h.2]
  | [], _ :: _, h => by simp [Value.beqL] at h
  | _ :: _, [], h => by simp [Value.beqL] at h

/-- Soundness of `Value.beqD`. -/
theorem Value.beqD_eq : ∀ (xs ys : List (String × Value)), Value.beqD xs ys = true → xs = ys
  | [], [], _ => rfl
  | (k, a) :: as, (l, b) :: bs, h => by
      simp only [Value.beqD, Bool.and_eq_true] at h
      obtain ⟨⟨hk, ha⟩, hd⟩ := h
      rw [Value.beq_eq a b ha, Value.beqD_eq as bs hd, show k = l by simpa using hk]
  | [], _ :: _, h => by simp [Value.beqD] at h
  | _ :: _, [], h => by simp [Value.beqD] at h

end

mutual

/-- Reflexivity of `Value.beq`. -/
theorem Value.beq_refl : ∀ (a : Value), Value.beq a a = true
  | .null => rfl
  | .bool a => by simp [Value.beq]
  | .int a => by simp [Value.beq]
  | .str a => by simp [Value.beq]
  | .list xs => by simp [Value.beq, Value.beqL_refl xs]
  | .dict xs => by simp [Value.beq, Value.beqD_refl xs]

/-- Reflexivity of `Value.beqL`. -/
theorem Value.beqL_refl : ∀ (xs : List Value), Value.beqL xs xs = true
  | [] => rfl
  | a :: as => by simp [Value.beqL, Value.beq_refl a, Value.beqL_refl as]

/-- Reflexivity of `Value.beqD`. -/
theorem Value.beqD_refl : ∀ (xs : List (String × Value)), Value.beqD xs xs = true
  | [] => rfl
  | (k, a) :: as => by simp [Value.beqD, Value.beq_refl a, Value.beqD_refl as]

end

instance : DecidableEq Value := fun a b =>
  match h : Value.beq a b with
  | true => .isTrue (Value.beq_eq a b h)
  | false => .isFalse (fun he => by rw [he, Value.beq_refl b] at h; exact Bool.noConfusion h)

/-- Python `v[k]` on an RPC payload: key lookup in a dict, `KeyError` for a
missing key, `TypeError`-style failures on non-dicts (indexing `None`
raises in CPython 2 with the attribute message below). -/
def pyGetItem (v : Value) (k : String) : Except PyExc Value :=
  match v with
  | .dict xs =>
    match xs.lookup k with
    | some x => .ok x
    | none => .error ⟨"KeyError", sq ++ k ++ sq⟩
  | .null => .error ⟨"TypeError", sq ++ "NoneType" ++ sq ++ " object has no attribute " ++ sq ++ "__getitem__" ++ sq⟩
  | _ => .error ⟨"TypeError", "object is not subscriptable"⟩

/-- Python `v.get(k, None)`: `None` (here `Option.none`) for a missing key;
calling `.get` on a non-dict raises `AttributeError`. -/
def dictGet (v : Value) (k : String) : Except PyExc (Option Value) :=
  match v with
  | .dict xs => .ok (xs.lookup k)
  | _ => .error ⟨"AttributeError", "object has no attribute " ++ sq ++ "get" ++ sq⟩

/-- The Python type name of a payload value. -/
def pyTypeName : Value → String
  | .null => "NoneType"
  | .bool _ => "bool"
  | .int _ => "int"
  | .str _ => "str"
  | .list _ => "list"
  | .dict _ => "dict"

/-- Python `tuple(v)`: sequences are converted — a list to the tuple of
its elements, a string to the tuple of its one-character strings, a dict
to the tuple of its keys — while `None`, booleans and numbers raise
`TypeError`.  The tuple itself is represented by a `list` value, the
tuple/list distinction not being part of the value model. -/
def pyTuple (v : Value) : Except PyExc Value :=
  match v with
  | .list xs => .ok (.list xs)
  | .str s => .ok (.list (s.data.map fun ch => .str (String.singleton ch)))
  | .dict xs => .ok (.list (xs.map fun kv => .str kv.1))
  | other => .error ⟨"TypeError", sq ++ pyTypeName other ++ sq ++ " object is not iterable"⟩

/-- Python 2 `str` of an exception class, e.g.
`str(Exception)` = `<type 'exceptions.Exception'>`. -/
def str_of_exc_type (ty : String) : String :=
  "<type " ++ sq ++ "exceptions." ++ ty ++ sq ++ ">"

/-- The error string built by `handle_msg`'s except-clause:
`str(ex_type) + ': ' + str(ex_value)`. -/
def format_exc (e : PyExc) : String := str_of_exc_type e.ty ++ ": " ++ e.msg

/-- Python `'%s' % v` for the values that can appear as an RPC method.
The textual repr of containers is irrelevant to the protocol. -/
def pyStrOpt : Option Value → String
  | none => "None"
  | some .null => "None"
  | some (.bool true) => "True"
  | some (.bool false) => "False"
  | some (.int n) => toString n
  | some (.str s) => s
  | some (.list _) => "<list>"
  | some (.dict _) => "<dict>"

/-- The environment capability interface consumed by the server
(external collaborator, section 6 of the spec): spaces, reward range, and
the fallible `step`/`reset`/`render` operations.  `close` is infallible and
is tracked by instrumentation on `ServerState`. -/
structure EnvHandle where
  observation_space : Value
  action_space : Value
  reward_range : Value
  stepFn : Value → Except PyExc (Value × Value × Value × Value)
  resetFn : Except PyExc Value
  renderFn : Value → Value → Except PyExc Value

/-- The mutable attributes of `GymProxyZmqServer` that the session protocol
touches.  `session_id` and `op_count` are `Option`s because the Python
attributes do not exist until first assigned (`session_id` in
`handle_setup`, `op_count` in `opened`); reading an unset attribute raises
`AttributeError`.  `env_close_calls` is instrumentation: it counts every
execution of `self.env.close()` (in `handle_close` and `closed`). -/
structure ServerState where
  make_env : Value → Except PyExc EnvHandle
  env : Option EnvHandle
  env_name : Option Value
  session_id : Option String
  op_count : Option Nat
  env_close_calls : Nat

/-- Read `self.session_id`, raising `AttributeError` when the attribute was
never assigned. -/
def get_session_id (s : ServerState) : Except PyExc String :=
  match s.session_id with
  | some sid => .ok sid
  | none => .error ⟨"AttributeError", sq ++ "GymProxyZmqServer" ++ sq ++ " object has no attribute " ++ sq ++ "session_id" ++ sq⟩

/-- Read an attribute `attr` off `self.env`; when `self.env` is `None` this
is the CPython `AttributeError` on `NoneType`. -/
def get_env (s : ServerState) (attr : String) : Except PyExc EnvHandle :=
  match s.env with
  | some e => .ok e
  | none => .error ⟨"AttributeError", sq ++ "NoneType" ++ sq ++ " object has no attribute " ++ sq ++ attr ++ sq⟩

/-- The session-identity check shared verbatim by `handle_step`,
`handle_reset`, `handle_close` and `handle_render`:
`if params['session_id'] != self.session_id: raise Exception('Wrong session id')`. -/
def check_session (s : ServerState) (params : Value) : Except PyExc String := do
  let psid ← pyGetItem params "session_id"
  let sid ← get_session_id s
  if psid ≠ Value.str sid then throw ⟨"Exception", "Wrong session id"⟩
  return sid

/-- `GymProxyZmqServer.handle_reset`. -/
def handle_reset (s : ServerState) (params : Value) : Except PyExc (Value × ServerState) := do
  let sid ← check_session s params
  let e ← get_env s "reset"
  let obs ← e.resetFn
  return (.dict [("obs", obs), ("session_id", .str sid)], s)

/-- `GymProxyZmqServer.handle_step`. -/
def handle_step (s : ServerState) (params : Value) : Except PyExc (Value × ServerState) := do
  let sid ← check_session s params
  let action ← pyGetItem params "action"
  let e ← get_env s "step"
  let (obs, reward, done, info) ← e.stepFn action
  return (.dict [("obs", obs), ("reward", reward), ("done", done), ("info", info), ("session_id", .str sid)], s)

/-- `GymProxyZmqServer.handle_setup`.  `cookie` is the value returned by
the external `zmq_serialize.mk_random_cookie()` call (randomness modelled
as an input). -/
def handle_setup (s : ServerState) (cookie : String) (params : Value) : Except PyExc (Value × ServerState) := do
  if s.env_name ≠ none then throw (⟨"Exception", "Already set up"⟩ : PyExc)
  let name ← pyGetItem params "env_name"
  let e ← s.make_env name
  let s2 : ServerState :=
    { s with env := some e, env_name := some name, session_id := some cookie }
  return (.dict [("observation_space", e.observation_space),
                 ("action_space", e.action_space),
                 ("reward_range", e.reward_range),
                 ("session_id", .str cookie)], s2)

/-- `GymProxyZmqServer.handle_close`: clears `env_name`, closes the
environment when one is present (`if self.env:` — a non-None object is
truthy), clears `env`, and returns the still-assigned `self.session_id`. -/
def handle_close (s : ServerState) (params : Value) : Except PyExc (Value × ServerState) := do
  let sid ← check_session s params
  let s2 : ServerState := { s with env_name := none }
  let s3 : ServerState :=
    match s2.env with
    | some _ => { s2 with env_close_calls := s2.env_close_calls + 1, env := none }
    | none => { s2 with env := none }
  return (.dict [("session_id", .str sid)], s3)

/-- `GymProxyZmqServer.handle_render`. -/
def handle_render (s : ServerState) (params : Value) : Except PyExc (Value × ServerState) := do
  let sid ← check_session s params
  let mode ← pyGetItem params "mode"
  let close ← pyGetItem params "close"
  let e ← get_env s "render"
  let img ← e.renderFn mode close
  return (.dict [("img", img), ("session_id", .str sid)], s)

/-- `GymProxyZmqServer.opened`, run by the monitor thread on
`EVENT_ACCEPTED`: clears `env_name` and resets `op_count`; `env` and
`session_id` are not touched. -/
def opened (s : ServerState) : ServerState :=
  { s with env_name := none, op_count := some 0 }

/-- `GymProxyZmqServer.closed`, run by the monitor thread on
`EVENT_DISCONNECTED`: clears `env_name`, closes the environment when one is
present, clears `env`. -/
def closed (s : ServerState) : ServerState :=
  let s2 : ServerState := { s with env_name := none }
  match s2.env with
  | some _ => { s2 with env_close_calls := s2.env_close_calls + 1, env := none }
  | none => { s2 with env := none }

/-- The reply envelope sent by `handle_msg`'s local `reply` function:
`{'result': rpc_result, 'error': rpc_error}`. -/
structure RpcReply where
  result : Option Value
  error : Option String
deriving DecidableEq

/-- The dispatch chain inside `handle_msg`'s try-block (source order:
step, reset, setup, close, render, else unknown method). -/
def dispatch (s : ServerState) (cookie : String) (rpc_method : Option Value) (rpc_params : Value) : Except PyExc (Value × ServerState) :=
  if rpc_method = some (.str "step") then handle_step s rpc_params
  else if rpc_method = some (.str "reset") then handle_reset s rpc_params
  else if rpc_method = some (.str "setup") then handle_setup s cookie rpc_params
  else if rpc_method = some (.str "close") then handle_close s rpc_params
  else if rpc_method = some (.str "render") then handle_render s rpc_params
  else .error ⟨"Exception", "unknown method " ++ pyStrOpt rpc_method⟩

/-- `GymProxyZmqServer.handle_msg`.  `decoded` is the outcome of the
external `zmq_serialize.load_msg(rx)` call (the codec is not under src/);
that call, the `rpc.get` accesses and the `op_count` increment sit BEFORE
the try-block in the source, so their failures propagate out of
`handle_msg` (outer `.error`, no reply sent).  Failures inside the
try-block are converted to an error reply (`.ok` with `result = none`). -/
def handle_msg (s : ServerState) (cookie : String) (decoded : Except PyExc Value) : Except PyExc (RpcReply × ServerState) := do
  let rpc ← decoded
  let rpc_method ← dictGet rpc "method"
  let rpc_params_opt ← dictGet rpc "params"
  let rpc_params := rpc_params_opt.getD .null
  let n ← match s.op_count with
    | some n => pure n
    | none => throw (⟨"AttributeError", sq ++ "GymProxyZmqServer" ++ sq ++ " object has no attribute " ++ sq ++ "op_count" ++ sq⟩ : PyExc)
  let s1 : ServerState := { s with op_count := some (n + 1) }
  match dispatch s1 cookie rpc_method rpc_params with
  | .ok (res, s2) => return ({ result := some res, error := none }, s2)
  | .error e => return ({ result := none, error := some (format_exc e) }, s1)

/-- Outcome of running `run_main`'s receive/handle loop over a finite
message stream: either still serving with the replies sent so far, or the
loop thread crashed on an uncaught exception (the replies sent before the
crash are recorded; later messages are never served). -/
inductive LoopOutcome where
  | running (s : ServerState) (replies : List RpcReply)
  | crashed (e : PyExc) (replies : List RpcReply)

/-- `GymProxyZmqServer.run_main`, unrolled over a finite list of incoming
messages.  Each element pairs the cookie `mk_random_cookie()` would
produce during that iteration with the decode outcome of the received
frames.  `run_main` has no exception handler around `handle_msg`, so an
exception escaping `handle_msg` terminates the loop. -/
def run_main_steps (s : ServerState) : List (String × Except PyExc Value) → LoopOutcome
  | [] => .running s []
  | (cookie, msg) :: rest =>
    match handle_msg s cookie msg with
    | .error e => .crashed e []
    | .ok (reply, s2) =>
      match run_main_steps s2 rest with
      | .running s3 replies => .running s3 (reply :: replies)
      | .crashed e replies => .crashed e (reply :: replies)

/-- Projection: the reply `handle_msg` sent, when one was sent at all. -/
def sentReply : Except PyExc (RpcReply × ServerState) → Option RpcReply
  | .ok (r, _) => some r
  | .error _ => none

/-- Projection: the state after `handle_msg`, when it returned normally. -/
def stateAfter : Except PyExc (RpcReply × ServerState) → Option ServerState
  | .ok (_, s) => some s
  | .error _ => none

/-- The request envelope built by the server-side handlers' callers:
`{'method': m, 'params': params}` as decoded on the server. -/
def mkReq (m : String) (params : Value) : Value :=
  .dict [("method", .str m), ("params", params)]

/-- The (environment, environment name, session id) triple called "Session
State" by the spec; `op_count` is explicitly excluded (progress logging
only). -/
def sessionCore (s : ServerState) : Option EnvHandle × Option Value × Option String :=
  (s.env, s.env_name, s.session_id)

/-! ## Client side (src/gym/envs/proxy/client.py) -/

/-- A token of the connection URL, as segmented by the regular expression
`\$(\w+)` in `GymProxyClient.__init__`: either a literal character or a
`$NAME` reference to an external environment variable. -/
inductive UrlTok where
  | lit (c : Char)
  | var (name : String)
deriving DecidableEq

/-- A regex word character, the `\w` class over ASCII. -/
def isWordChar (c : Char) : Bool := c.isAlphanum || c == '_'

/-- Split a character list into its maximal word-character prefix and the
rest (the extent of one `\w+` match). -/
def spanWord : List Char → List Char × List Char
  | [] => ([], [])
  | c :: rest =>
    if isWordChar c then
      let (w, r) := spanWord rest
      (c :: w, r)
    else ([], c :: rest)

/-- Fuelled scanner for the matches of `\$(\w+)` in a URL; a `$` not
followed by a word character matches nothing and stays literal.  The fuel
is the character count, which bounds the recursion since every step
consumes at least one character. -/
def scanUrlAux : Nat → List Char → List UrlTok
  | 0, _ => []
  | _, [] => []
  | fuel + 1, c :: rest =>
    if c = '$' then
      match spanWord rest with
      | ([], _) => .lit c :: scanUrlAux fuel rest
      | (w, r) => .var (String.mk w) :: scanUrlAux fuel r
    else .lit c :: scanUrlAux fuel rest

/-- Segment a URL into literals and `$NAME` references. -/
def scanUrl (url : String) : List UrlTok := scanUrlAux url.data.length url.data

/-- CPython `re.sub` over the URL with the replacement function
`expand_env` of `GymProxyClient.__init__`: every match is evaluated (a
missing environment variable logs the warning `No environment var $NAME
defined` and yields Python `None`), then the replacement results are
joined; a `None` replacement makes the join raise `TypeError` (the code
returns `ret` unchanged instead of substituting an empty string).  Returns
the warnings logged and the outcome.  The item index that CPython puts in
the `TypeError` message is elided. -/
def re_sub_env (environ : String → Option String) : List UrlTok → List String × Except PyExc String
  | [] => ([], .ok "")
  | t :: rest =>
    let (ws, r) := re_sub_env environ rest
    match t with
    | .lit c =>
      (ws, match r with
           | .ok tl => .ok (String.singleton c ++ tl)
           | .error e => .error e)
    | .var name =>
      match environ name with
      | some v =>
        (ws, match r with
             | .ok tl => .ok (v ++ tl)
             | .error e => .error e)
      | none =>
        (("No environment var $" ++ name ++ " defined") :: ws,
         .error ⟨"TypeError", "expected string, NoneType found"⟩)

/-- The request envelope sent by `GymProxyClientSocket.rpc`:
`{'method': method, 'params': params}`. -/
structure RpcRequest where
  method : String
  params : Value
deriving DecidableEq

/-- `GymProxyClientSocket.rpc` against an abstract server oracle `srv`:
send the request, receive the reply; raise `Exception(error)` when the
reply's error is not `None`, otherwise return the reply's result. -/
def client_rpc (srv : RpcRequest → RpcReply) (method : String) (params : Value) : Except PyExc Value :=
  let ans := srv ⟨method, params⟩
  match ans.error with
  | some e => .error ⟨"Exception", e⟩
  | none => .ok (ans.result.getD .null)

/-- The attributes `GymProxyClient.__init__` stores from the setup reply;
`reward_range` holds the result of the `tuple(...)` conversion. -/
structure ClientState where
  action_space : Value
  observation_space : Value
  reward_range : Value
  session_id : Value
deriving DecidableEq

/-- `GymProxyClient._reset`: issue `reset` with the stored session id,
check the reply's session id against the stored one, return the
observation. -/
def client_reset (srv : RpcRequest → RpcReply) (st : ClientState) : Except PyExc Value := do
  let ret ← client_rpc srv "reset" (.dict [("session_id", st.session_id)])
  let rsid ← pyGetItem ret "session_id"
  if rsid ≠ st.session_id then throw (⟨"Exception", "Wrong session id"⟩ : PyExc)
  pyGetItem ret "obs"

/-- Modelled from the spec: the base-class method `gym.Env.reset` invoked
as `self.reset()` at the end of `GymProxyClient.__init__` is code of this
repository that is not under src/; per the spec's client surface
(`reset() -> observation` issues `reset` with the session id), it
delegates to the proxy client's reset implementation. -/
def env_reset (srv : RpcRequest → RpcReply) (st : ClientState) : Except PyExc Value :=
  client_reset srv st

/-- Everything observable about one run of `GymProxyClient.__init__`: the
warnings logged during URL expansion, the RPC requests sent over the
socket in order, and the construction outcome. -/
structure InitOutcome where
  warnings : List String
  requests : List RpcRequest
  outcome : Except PyExc ClientState

/-- `GymProxyClient.__init__`: expand `$NAME` references in the URL from
the external environment `environ`, connect, issue `setup` with the
keyword arguments, store the spaces, the `tuple(...)`-converted reward
range and the session id from the setup reply, then call `self.reset()`
(which issues `reset` and checks the reply's session id).  Any raise
aborts construction. -/
def clientInit (environ : String → Option String) (url : String) (srv : RpcRequest → RpcReply) (kwargs : Value) : InitOutcome :=
  match re_sub_env environ (scanUrl url) with
  | (ws, .error e) => { warnings := ws, requests := [], outcome := .error e }
  | (ws, .ok _expanded) =>
    let req1 : RpcRequest := ⟨"setup", kwargs⟩
    match client_rpc srv "setup" kwargs with
    | .error e => { warnings := ws, requests := [req1], outcome := .error e }
    | .ok setup_result =>
      let fields : Except PyExc ClientState := do
        let aspace ← pyGetItem setup_result "action_space"
        let ospace ← pyGetItem setup_result "observation_space"
        let rrange_raw ← pyGetItem setup_result "reward_range"
        let rrange ← pyTuple rrange_raw
        let sid ← pyGetItem setup_result "session_id"
        return ⟨aspace, ospace, rrange, sid⟩
      match fields with
      | .error e => { warnings := ws, requests := [req1], outcome := .error e }
      | .ok st =>
        let req2 : RpcRequest := ⟨"reset", .dict [("session_id", st.session_id)]⟩
        match env_reset srv st with
        | .error e => { warnings := ws, requests := [req1, req2], outcome := .error e }
        | .ok _obs => { warnings := ws, requests := [req1, req2], outcome := .ok st }

/-! ## Concrete fixtures used by witnesses and counterexamples -/

/-- A concrete healthy environment. -/
def env0 : EnvHandle :=
  { observation_space := .str "obs-space"
  , action_space := .str "act-space"
  , reward_range := .list [.int 0, .int 1]
  , stepFn := fun _ => .ok (.int 7, .int 1, .bool false, .dict [])
  , resetFn := .ok (.int 0)
  , renderFn := fun _ _ => .ok (.str "img") }

/-- A concrete environment factory. -/
def make_env0 : Value → Except PyExc EnvHandle := fun _ => .ok env0

/-- A concrete server state with an active session `abc123` on `env0`. -/
def s0 : ServerState :=
  { make_env := make_env0
  , env := some env0
  , env_name := some (.str "Toy-v0")
  , session_id := some "abc123"
  , op_count := some 0
  , env_close_calls := 0 }

/-- A concrete environment whose `step` raises while `reset` succeeds. -/
def env_bad : EnvHandle :=
  { env0 with stepFn := fun _ => .error ⟨"ValueError", "env step failed"⟩ }

/-- A concrete server state with an active session on `env_bad`. -/
def s_bad : ServerState := { s0 with env := some env_bad }

/-! ## Helper lemmas -/

/-- Unfolding `handle_msg` on a well-formed request when `op_count` is
assigned: decode and the pre-try accesses succeed, and the outcome is
determined by `dispatch` on the op-count-incremented state. -/
theorem handle_msg_eq_dispatch (s : ServerState) (c : String) (m : String) (p : Value) (n : Nat)
    (hop : s.op_count = some n) :
    handle_msg s c (.ok (mkReq m p)) =
      match dispatch { s with op_count := some (n + 1) } c (some (.str m)) p with
      | .ok (res, s2) => .ok ({ result := some res, error := none }, s2)
      | .error e => .ok ({ result := none, error := some (format_exc e) },
                         { s with op_count := some (n + 1) }) := by
  simp [handle_msg, mkReq, dictGet, hop, List.lookup, Bind.bind, Except.bind, pure, Except.pure]

/-- The session-identity check rejects a params dict whose `session_id`
differs from the assigned `self.session_id`. -/
theorem check_session_wrong (s : ServerState) (sid : String) (ps : List (String × Value)) (v : Value)
    (hsid : s.session_id = some sid) (hv : ps.lookup "session_id" = some v) (hne : v ≠ .str sid) :
    check_session s (.dict ps) = .error ⟨"Exception", "Wrong session id"⟩ := by
  simp [check_session, pyGetItem, get_session_id, hsid, hv, hne, Bind.bind, Except.bind,
        throw, throwThe, MonadExceptOf.throw]

/-- The session-identity check passes a params dict whose `session_id`
equals the assigned `self.session_id`. -/
theorem check_session_right (s : ServerState) (sid : String) (ps : List (String × Value))
    (hsid : s.session_id = some sid) (hv : ps.lookup "session_id" = some (.str sid)) :
    check_session s (.dict ps) = .ok sid := by
  simp [check_session, pyGetItem, get_session_id, hsid, hv, Bind.bind, Except.bind, pure, Except.pure]

/-! ## Claims -/

/-- C1: with an active session, handling a `step`, `reset`, `render` or
`close` request whose params carry a `session_id` different from the
active session's yields the "Wrong session id" error reply and leaves the
session state (environment, environment name, session id) unchanged (only
the logging counter `op_count` advances); a request carrying the matching
`session_id` succeeds, provided the underlying environment call does not
itself fail. -/
theorem C1_session_gating (s : ServerState) (e : EnvHandle) (sid : String) (nm : Value) (n : Nat) (c : String)
    (henv : s.env = some e) (hname : s.env_name = some nm)
    (hsid : s.session_id = some sid) (hop : s.op_count = some n) :
    (∀ m ∈ ["step", "reset", "render", "close"], ∀ ps : List (String × Value), ∀ v : Value,
       ps.lookup "session_id" = some v → v ≠ .str sid →
       handle_msg s c (.ok (mkReq m (.dict ps))) =
         .ok ({ result := none, error := some (format_exc ⟨"Exception", "Wrong session id"⟩) },
              { s with op_count := some (n + 1) }))
    ∧ (∀ ps a obs rew dn inf, ps.lookup "session_id" = some (.str sid) →
        ps.lookup "action" = some a → e.stepFn a = .ok (obs, rew, dn, inf) →
        handle_msg s c (.ok (mkReq "step" (.dict ps))) =
          .ok ({ result := some (.dict [("obs", obs), ("reward", rew), ("done", dn), ("info", inf), ("session_id", .str sid)]),
                 error := none },
               { s with op_count := some (n + 1) }))
    ∧ (∀ ps obs, ps.lookup "session_id" = some (.str sid) → e.resetFn = .ok obs →
        handle_msg s c (.ok (mkReq "reset" (.dict ps))) =
          .ok ({ result := some (.dict [("obs", obs), ("session_id", .str sid)]), error := none },
               { s with op_count := some (n + 1) }))
    ∧ (∀ ps mo cl img, ps.lookup "session_id" = some (.str sid) →
        ps.lookup "mode" = some mo → ps.lookup "close" = some cl →
        e.renderFn mo cl = .ok img →
        handle_msg s c (.ok (mkReq "render" (.dict ps))) =
          .ok ({ result := some (.dict [("img", img), ("session_id", .str sid)]), error := none },
               { s with op_count := some (n + 1) }))
    ∧ (∀ ps, ps.lookup "session_id" = some (.str sid) →
        handle_msg s c (.ok (mkReq "close" (.dict ps))) =
          .ok ({ result := some (.dict [("session_id", .str sid)]), error := none },
               { s with op_count := some (n + 1), env_name := none, env := none,
                        env_close_calls := s.env_close_calls + 1 })) := by
  refine ⟨?_, ?_, ?_, ?_, ?_⟩
  · intro m hm ps v hv hne
    have hcs : check_session { s with op_count := some (n + 1) } (.dict ps) =
        .error ⟨"Exception", "Wrong session id"⟩ :=
      check_session_wrong _ sid ps v hsid hv hne
    fin_cases hm <;>
      rw [handle_msg_eq_dispatch s c _ (.dict ps) n hop] <;>
      simp [dispatch, handle_step, handle_reset, handle_render, handle_close, hcs,
            Bind.bind, Except.bind]
  · intro ps a obs rew dn inf hv ha hstep
    rw [handle_msg_eq_dispatch s c "step" (.dict ps) n hop]
    have hcs := check_session_right ({ s with op_count := some (n + 1) }) sid ps hsid hv
    rw [henv] at hcs
    simp [dispatch, handle_step, hcs, pyGetItem, ha, get_env, henv, hstep,
          Bind.bind, Except.bind, pure, Except.pure]
  · intro ps obs hv hreset
    rw [handle_msg_eq_dispatch s c "reset" (.dict ps) n hop]
    have hcs := check_session_right ({ s with op_count := some (n + 1) }) sid ps hsid hv
    rw [henv] at hcs
    simp [dispatch, handle_reset, hcs, get_env, henv, hreset,
          Bind.bind, Except.bind, pure, Except.pure]
  · intro ps mo cl img hv hmo hcl hrender
    rw [handle_msg_eq_dispatch s c "render" (.dict ps) n hop]
    have hcs := check_session_right ({ s with op_count := some (n + 1) }) sid ps hsid hv
    rw [henv] at hcs
    simp [dispatch, handle_render, hcs, pyGetItem, hmo, hcl, get_env, henv, hrender,
          Bind.bind, Except.bind, pure, Except.pure]
  · intro ps hv
    rw [handle_msg_eq_dispatch s c "close" (.dict ps) n hop]
    have hcs := check_session_right ({ s with op_count := some (n + 1) }) sid ps hsid hv
    rw [henv] at hcs
    simp [dispatch, handle_close, hcs, henv, Bind.bind, Except.bind, pure, Except.pure]

/-- Witness for C1 at the concrete state `s0` (active session `abc123`). -/
theorem C1_session_gating_witness :
    handle_msg s0 "ck" (.ok (mkReq "step" (.dict [("session_id", .str "bad")]))) =
      .ok ({ result := none, error := some (format_exc ⟨"Exception", "Wrong session id"⟩) },
           { s0 with op_count := some 1 })
    ∧ handle_msg s0 "ck" (.ok (mkReq "close" (.dict [("session_id", .str "bad")]))) =
      .ok ({ result := none, error := some (format_exc ⟨"Exception", "Wrong session id"⟩) },
           { s0 with op_count := some 1 })
    ∧ handle_msg s0 "ck" (.ok (mkReq "step" (.dict [("session_id", .str "abc123"), ("action", .int 0)]))) =
      .ok ({ result := some (.dict [("obs", .int 7), ("reward", .int 1), ("done", .bool false),
                                    ("info", .dict []), ("session_id", .str "abc123")]),
             error := none },
           { s0 with op_count := some 1 })
    ∧ handle_msg s0 "ck" (.ok (mkReq "reset" (.dict [("session_id", .str "abc123")]))) =
      .ok ({ result := some (.dict [("obs", .int 0), ("session_id", .str "abc123")]), error := none },
           { s0 with op_count := some 1 })
    ∧ handle_msg s0 "ck" (.ok (mkReq "render" (.dict [("session_id", .str "abc123"), ("mode", .str "human"), ("close", .bool false)]))) =
      .ok ({ result := some (.dict [("img", .str "img"), ("session_id", .str "abc123")]), error := none },
           { s0 with op_count := some 1 })
    ∧ handle_msg s0 "ck" (.ok (mkReq "close" (.dict [("session_id", .str "abc123")]))) =
      .ok ({ result := some (.dict [("session_id", .str "abc123")]), error := none },
           { s0 with op_count := some 1, env_name := none, env := none, env_close_calls := 1 }) := by
  obtain ⟨hA, hB, hC, hD, hE⟩ :=
    C1_session_gating s0 env0 "abc123" (.str "Toy-v0") 0 "ck" rfl rfl rfl rfl
  exact ⟨hA "step" (by decide) _ _ rfl (by decide),
         hA "close" (by decide) _ _ rfl (by decide),
         hB _ _ _ _ _ _ rfl rfl rfl,
         hC _ _ rfl rfl,
         hD _ _ _ _ rfl rfl rfl rfl,
         hE _ rfl⟩

/-- C2: while a session is active, a second `setup` request is rejected
with the "Already set up" error reply, and the environment, environment
name and session id still reflect the first setup (only the logging
counter advances). -/
theorem C2_duplicate_setup (s : ServerState) (nm : Value) (n : Nat) (c : String) (params : Value)
    (hname : s.env_name = some nm) (hop : s.op_count = some n) :
    handle_msg s c (.ok (mkReq "setup" params)) =
      .ok ({ result := none, error := some (format_exc ⟨"Exception", "Already set up"⟩) },
           { s with op_count := some (n + 1) }) := by
  rw [handle_msg_eq_dispatch s c "setup" params n hop]
  simp [dispatch, handle_setup, hname, throw, throwThe, MonadExceptOf.throw, Bind.bind, Except.bind]

/-- Witness for C2 at the concrete state `s0`. -/
theorem C2_duplicate_setup_witness :
    handle_msg s0 "ck2" (.ok (mkReq "setup" (.dict [("env_name", .str "Other-v0")]))) =
      .ok ({ result := none, error := some (format_exc ⟨"Exception", "Already set up"⟩) },
           { s0 with op_count := some 1 }) :=
  C2_duplicate_setup s0 (.str "Toy-v0") 0 "ck2" (.dict [("env_name", .str "Other-v0")]) rfl rfl

/-- C3 counterexample: a decode failure does NOT produce an error reply
and the loop does NOT continue.  On a concrete stream whose first message
fails to decode, the loop crashes before sending any reply and the
well-formed second request is never served — the claim asserts an error
reply and continued service. -/
theorem C3_counterexample :
    run_main_steps s0
      [("ck1", .error ⟨"MalformedMessage", "bad frame 0"⟩),
       ("ck2", .ok (mkReq "reset" (.dict [("session_id", .str "abc123")])))] =
      .crashed ⟨"MalformedMessage", "bad frame 0"⟩ [] := rfl

/-- C3 amended: `zmq_serialize.load_msg` is called before `handle_msg`'s
try-block, so a decode failure propagates out of `handle_msg`: no error
reply is sent for the offending request and the request-serving loop
terminates, never serving the remaining requests. -/
theorem C3_decode_failure_fatal (s : ServerState) (c : String) (e : PyExc)
    (rest : List (String × Except PyExc Value)) :
    run_main_steps s ((c, .error e) :: rest) = .crashed e [] := rfl

/-- C4 counterexample: the error reply for a `step` with a non-matching
session id carries `str(ex_type) + ': ' + str(ex_value)` — the
exception-type prefix makes it differ from the bare message
`"Wrong session id"` that the claim specifies. -/
theorem C4_counterexample :
    sentReply (handle_msg s0 "ck" (.ok (mkReq "step" (.dict [("session_id", .str "wrong")])))) =
      some { result := none,
             error := some ("<type " ++ sq ++ "exceptions.Exception" ++ sq ++ ">: Wrong session id") }
    ∧ ("<type " ++ sq ++ "exceptions.Exception" ++ sq ++ ">: Wrong session id") ≠ "Wrong session id" :=
  ⟨rfl, by decide⟩

/-- C4 amended: for every handler failure the error reply's error field is
the failure's type string, a colon-space separator, then the message —
`str(ex_type) + ': ' + str(ex_value)` — not the bare message. -/
theorem C4_error_format (s : ServerState) (c : String) (rpc : Value) (mo po : Option Value)
    (n : Nat) (exc : PyExc)
    (hm : dictGet rpc "method" = .ok mo) (hp : dictGet rpc "params" = .ok po)
    (hop : s.op_count = some n)
    (hd : dispatch { s with op_count := some (n + 1) } c mo (po.getD .null) = .error exc) :
    handle_msg s c (.ok rpc) =
      .ok ({ result := none, error := some (str_of_exc_type exc.ty ++ ": " ++ exc.msg) },
           { s with op_count := some (n + 1) }) := by
  simp [handle_msg, hm, hp, hop, hd, format_exc, Bind.bind, Except.bind, pure, Except.pure]

/-- Witness for C4 at the concrete state `s0`: a `step` with a wrong
session id is formatted with the Python 2 exception-type prefix. -/
theorem C4_error_format_witness :
    handle_msg s0 "ck" (.ok (mkReq "step" (.dict [("session_id", .str "wrong")]))) =
      .ok ({ result := none, error := some (str_of_exc_type "Exception" ++ ": " ++ "Wrong session id") },
           { s0 with op_count := some 1 }) :=
  C4_error_format s0 "ck" (mkReq "step" (.dict [("session_id", .str "wrong")]))
    (some (.str "step")) (some (.dict [("session_id", .str "wrong")])) 0
    ⟨"Exception", "Wrong session id"⟩ rfl rfl rfl rfl

/-- C5 counterexample: after a successful `close` on session `abc123`,
`self.session_id` still holds `abc123`, and a subsequent `step` carrying
the old session id passes the identity check: it fails with the
`AttributeError` from calling `.step` on the released (`None`) environment
— which is not the "Wrong session id" session-identity rejection the
claim requires. -/
theorem C5_counterexample :
    (∃ r s1, handle_close s0 (.dict [("session_id", .str "abc123")]) = .ok (r, s1)
      ∧ s1.session_id = some "abc123"
      ∧ handle_step s1 (.dict [("session_id", .str "abc123"), ("action", .int 0)]) =
          .error ⟨"AttributeError", sq ++ "NoneType" ++ sq ++ " object has no attribute " ++ sq ++ "step" ++ sq⟩)
    ∧ (⟨"AttributeError", sq ++ "NoneType" ++ sq ++ " object has no attribute " ++ sq ++ "step" ++ sq⟩ : PyExc)
        ≠ ⟨"Exception", "Wrong session id"⟩ :=
  ⟨⟨_, _, rfl, rfl, rfl⟩, by decide⟩

/-- C5 amended: a successful `close` releases the environment and clears
the environment name (the session becomes inactive), but the session id is
NOT invalidated: a subsequent `step`, `reset` or `render` carrying the old
session id still passes the identity check and instead fails with the
`AttributeError` from the absent (`None`) environment, and a repeated
`close` carrying the old session id passes the identity check and
SUCCEEDS again (without invoking the environment's close and without
changing state), while a request with any other session id still gets
"Wrong session id" from every one of the four handlers. -/
theorem C5_close_keeps_session_id (s : ServerState) (e : EnvHandle) (sid : String)
    (ps : List (String × Value))
    (henv : s.env = some e) (hsid : s.session_id = some sid)
    (hv : ps.lookup "session_id" = some (.str sid)) :
    ∃ s1, handle_close s (.dict ps) = .ok (.dict [("session_id", .str sid)], s1)
      ∧ s1.env = none ∧ s1.env_name = none ∧ s1.session_id = some sid
      ∧ (∀ (qs : List (String × Value)) (a : Value), qs.lookup "session_id" = some (.str sid) →
          qs.lookup "action" = some a →
          handle_step s1 (.dict qs) =
            .error ⟨"AttributeError", sq ++ "NoneType" ++ sq ++ " object has no attribute " ++ sq ++ "step" ++ sq⟩)
      ∧ (∀ qs : List (String × Value), qs.lookup "session_id" = some (.str sid) →
          handle_reset s1 (.dict qs) =
            .error ⟨"AttributeError", sq ++ "NoneType" ++ sq ++ " object has no attribute " ++ sq ++ "reset" ++ sq⟩)
      ∧ (∀ (qs : List (String × Value)) (mo cl : Value), qs.lookup "session_id" = some (.str sid) →
          qs.lookup "mode" = some mo → qs.lookup "close" = some cl →
          handle_render s1 (.dict qs) =
            .error ⟨"AttributeError", sq ++ "NoneType" ++ sq ++ " object has no attribute " ++ sq ++ "render" ++ sq⟩)
      ∧ (∀ qs : List (String × Value), qs.lookup "session_id" = some (.str sid) →
          handle_close s1 (.dict qs) = .ok (.dict [("session_id", .str sid)], s1))
      ∧ (∀ (qs : List (String × Value)) (v : Value), qs.lookup "session_id" = some v → v ≠ .str sid →
          handle_step s1 (.dict qs) = .error ⟨"Exception", "Wrong session id"⟩
          ∧ handle_reset s1 (.dict qs) = .error ⟨"Exception", "Wrong session id"⟩
          ∧ handle_render s1 (.dict qs) = .error ⟨"Exception", "Wrong session id"⟩
          ∧ handle_close s1 (.dict qs) = .error ⟨"Exception", "Wrong session id"⟩) := by
  have hcs := check_session_right s sid ps hsid hv
  refine ⟨{ s with env_name := none, env := none, env_close_calls := s.env_close_calls + 1 },
          ?_, rfl, rfl, hsid, ?_, ?_, ?_, ?_, ?_⟩
  · simp [handle_close, hcs, henv, Bind.bind, Except.bind, pure, Except.pure]
  · intro qs a hq ha
    have hcs1 : check_session
        { s with env_name := none, env := none, env_close_calls := s.env_close_calls + 1 }
        (.dict qs) = .ok sid :=
      check_session_right _ sid qs hsid hq
    simp [handle_step, hcs1, pyGetItem, ha, get_env, Bind.bind, Except.bind, pure, Except.pure]
  · intro qs hq
    have hcs1 : check_session
        { s with env_name := none, env := none, env_close_calls := s.env_close_calls + 1 }
        (.dict qs) = .ok sid :=
      check_session_right _ sid qs hsid hq
    simp [handle_reset, hcs1, get_env, Bind.bind, Except.bind, pure, Except.pure]
  · intro qs mo cl hq hmo hcl
    have hcs1 : check_session
        { s with env_name := none, env := none, env_close_calls := s.env_close_calls + 1 }
        (.dict qs) = .ok sid :=
      check_session_right _ sid qs hsid hq
    simp [handle_render, hcs1, pyGetItem, hmo, hcl, get_env, Bind.bind, Except.bind, pure, Except.pure]
  · intro qs hq
    have hcs1 : check_session
        { s with env_name := none, env := none, env_close_calls := s.env_close_calls + 1 }
        (.dict qs) = .ok sid :=
      check_session_right _ sid qs hsid hq
    simp [handle_close, hcs1, Bind.bind, Except.bind, pure, Except.pure]
  · intro qs v hq hne
    have hcs1 : check_session
        { s with env_name := none, env := none, env_close_calls := s.env_close_calls + 1 }
        (.dict qs) = .error ⟨"Exception", "Wrong session id"⟩ :=
      check_session_wrong _ sid qs v hsid hq hne
    exact ⟨by simp [handle_step, hcs1, Bind.bind, Except.bind],
           by simp [handle_reset, hcs1, Bind.bind, Except.bind],
           by simp [handle_render, hcs1, Bind.bind, Except.bind],
           by simp [handle_close, hcs1, Bind.bind, Except.bind]⟩

/-- Witness for C5 amended at the concrete state `s0`. -/
theorem C5_close_keeps_session_id_witness :
    ∃ s1, handle_close s0 (.dict [("session_id", .str "abc123")]) =
        .ok (.dict [("session_id", .str "abc123")], s1)
      ∧ s1.env = none ∧ s1.env_name = none ∧ s1.session_id = some "abc123"
      ∧ (∀ (qs : List (String × Value)) (a : Value), qs.lookup "session_id" = some (.str "abc123") →
          qs.lookup "action" = some a →
          handle_step s1 (.dict qs) =
            .error ⟨"AttributeError", sq ++ "NoneType" ++ sq ++ " object has no attribute " ++ sq ++ "step" ++ sq⟩)
      ∧ (∀ qs : List (String × Value), qs.lookup "session_id" = some (.str "abc123") →
          handle_reset s1 (.dict qs) =
            .error ⟨"AttributeError", sq ++ "NoneType" ++ sq ++ " object has no attribute " ++ sq ++ "reset" ++ sq⟩)
      ∧ (∀ (qs : List (String × Value)) (mo cl : Value), qs.lookup "session_id" = some (.str "abc123") →
          qs.lookup "mode" = some mo → qs.lookup "close" = some cl →
          handle_render s1 (.dict qs) =
            .error ⟨"AttributeError", sq ++ "NoneType" ++ sq ++ " object has no attribute " ++ sq ++ "render" ++ sq⟩)
      ∧ (∀ qs : List (String × Value), qs.lookup "session_id" = some (.str "abc123") →
          handle_close s1 (.dict qs) = .ok (.dict [("session_id", .str "abc123")], s1))
      ∧ (∀ (qs : List (String × Value)) (v : Value), qs.lookup "session_id" = some v → v ≠ .str "abc123" →
          handle_step s1 (.dict qs) = .error ⟨"Exception", "Wrong session id"⟩
          ∧ handle_reset s1 (.dict qs) = .error ⟨"Exception", "Wrong session id"⟩
          ∧ handle_render s1 (.dict qs) = .error ⟨"Exception", "Wrong session id"⟩
          ∧ handle_close s1 (.dict qs) = .error ⟨"Exception", "Wrong session id"⟩) :=
  C5_close_keeps_session_id s0 env0 "abc123" [("session_id", .str "abc123")] rfl rfl rfl

/-- C6 counterexample: immediately after the lifecycle monitor processes a
connect-accepted event (`opened`) on a state with an active session, a
`step` request carrying the PREVIOUS session's id is accepted and executes
against the stale environment — no new `setup` was required, contradicting
the claim. -/
theorem C6_counterexample :
    (opened s0).env_name = none ∧ (opened s0).op_count = some 0 ∧
    handle_msg (opened s0) "ck" (.ok (mkReq "step" (.dict [("session_id", .str "abc123"), ("action", .int 0)]))) =
      .ok ({ result := some (.dict [("obs", .int 7), ("reward", .int 1), ("done", .bool false),
                                    ("info", .dict []), ("session_id", .str "abc123")]),
             error := none },
           { opened s0 with op_count := some 1 }) :=
  ⟨rfl, rfl, rfl⟩

/-- C6 amended: `opened` clears `env_name` (making the session inactive
under the spec's active-iff definition) and resets the operation counter,
but does not clear `env` or `session_id`; consequently a `step` carrying
the previous session's id passes the identity check, and when the stale
environment is still present (no disconnect was processed) the request is
accepted and runs against it. -/
theorem C6_opened_keeps_env_and_session (s : ServerState) (e : EnvHandle) (sid : String) (c : String)
    (a obs rew dn inf : Value)
    (henv : s.env = some e) (hsid : s.session_id = some sid)
    (hstep : e.stepFn a = .ok (obs, rew, dn, inf)) :
    (opened s).env_name = none ∧ (opened s).op_count = some 0
    ∧ (opened s).env = s.env ∧ (opened s).session_id = s.session_id
    ∧ handle_msg (opened s) c
        (.ok (mkReq "step" (.dict [("session_id", .str sid), ("action", a)]))) =
        .ok ({ result := some (.dict [("obs", obs), ("reward", rew), ("done", dn),
                                      ("info", inf), ("session_id", .str sid)]),
               error := none },
             { s with env_name := none, op_count := some 1 }) := by
  refine ⟨rfl, rfl, rfl, rfl, ?_⟩
  have hos : opened s = { s with env_name := none, op_count := some 0 } := rfl
  rw [hos, handle_msg_eq_dispatch _ c "step" _ 0 rfl]
  have hcs : check_session { s with env_name := none, op_count := some 1 }
      (.dict [("session_id", .str sid), ("action", a)]) = .ok sid :=
    check_session_right _ sid _ hsid rfl
  rw [henv] at hcs
  simp [dispatch, handle_step, hcs, pyGetItem, List.lookup, get_env, henv, hstep,
        Bind.bind, Except.bind, pure, Except.pure]

/-- Witness for C6 amended at the concrete state `s0`. -/
theorem C6_opened_keeps_env_and_session_witness :
    (opened s0).env_name = none ∧ (opened s0).op_count = some 0
    ∧ (opened s0).env = s0.env ∧ (opened s0).session_id = s0.session_id
    ∧ handle_msg (opened s0) "ck"
        (.ok (mkReq "step" (.dict [("session_id", .str "abc123"), ("action", .int 5)]))) =
        .ok ({ result := some (.dict [("obs", .int 7), ("reward", .int 1), ("done", .bool false),
                                      ("info", .dict []), ("session_id", .str "abc123")]),
               error := none },
             { s0 with env_name := none, op_count := some 1 }) :=
  C6_opened_keeps_env_and_session s0 env0 "abc123" "ck" (.int 5) (.int 7) (.int 1) (.bool false)
    (.dict []) rfl rfl rfl

/-- C7: a disconnect observed while a session is active invokes the
environment's `close` exactly once — a second disconnect, or a disconnect
after an explicit `close` request already released the environment, does
not invoke it again — and session state becomes inactive. -/
theorem C7_disconnect_closes_once (s : ServerState) (e : EnvHandle) (henv : s.env = some e) :
    (closed s).env = none ∧ (closed s).env_name = none
    ∧ (closed s).env_close_calls = s.env_close_calls + 1
    ∧ (closed (closed s)).env_close_calls = s.env_close_calls + 1
    ∧ (∀ p r s2, handle_close s p = .ok (r, s2) →
        (closed s2).env_close_calls = s2.env_close_calls) := by
  have h1 : closed s = { s with env_name := none, env := none,
                                env_close_calls := s.env_close_calls + 1 } := by
    simp [closed, henv]
  refine ⟨by rw [h1], by rw [h1], by rw [h1], by rw [h1]; simp [closed], ?_⟩
  intro p r s2 h
  unfold handle_close at h
  cases hcs : check_session s p with
  | error ex =>
    rw [hcs] at h
    simp [Bind.bind, Except.bind] at h
  | ok sid =>
    rw [hcs] at h
    simp [Bind.bind, Except.bind, pure, Except.pure, henv] at h
    rw [← h.2]
    simp [closed]

/-- Witness for C7 at the concrete state `s0`. -/
theorem C7_disconnect_closes_once_witness :
    (closed s0).env = none ∧ (closed s0).env_name = none
    ∧ (closed s0).env_close_calls = s0.env_close_calls + 1
    ∧ (closed (closed s0)).env_close_calls = s0.env_close_calls + 1
    ∧ (∀ p r s2, handle_close s0 p = .ok (r, s2) →
        (closed s2).env_close_calls = s2.env_close_calls) :=
  C7_disconnect_closes_once s0 env0 rfl

/-- C8: an environment `step` call that raises produces an error reply
carrying the formatted failure, the request loop keeps running, and an
immediately following well-formed `reset` on the same session succeeds. -/
theorem C8_failure_isolation (s : ServerState) (e : EnvHandle) (sid : String) (n : Nat)
    (a obs : Value) (exc : PyExc) (c1 c2 : String)
    (henv : s.env = some e) (hsid : s.session_id = some sid) (hop : s.op_count = some n)
    (hstep : e.stepFn a = .error exc) (hreset : e.resetFn = .ok obs) :
    run_main_steps s
      [(c1, .ok (mkReq "step" (.dict [("session_id", .str sid), ("action", a)]))),
       (c2, .ok (mkReq "reset" (.dict [("session_id", .str sid)])))] =
      .running { s with op_count := some (n + 1 + 1) }
        [{ result := none, error := some (format_exc exc) },
         { result := some (.dict [("obs", obs), ("session_id", .str sid)]), error := none }] := by
  have h1 : handle_msg s c1 (.ok (mkReq "step" (.dict [("session_id", .str sid), ("action", a)]))) =
      .ok ({ result := none, error := some (format_exc exc) }, { s with op_count := some (n + 1) }) := by
    rw [handle_msg_eq_dispatch s c1 "step" _ n hop]
    have hcs : check_session { s with op_count := some (n + 1) }
        (.dict [("session_id", .str sid), ("action", a)]) = .ok sid :=
      check_session_right _ sid _ hsid rfl
    rw [henv] at hcs
    simp [dispatch, handle_step, hcs, pyGetItem, List.lookup, get_env, henv, hstep,
          Bind.bind, Except.bind, pure, Except.pure]
  have h2 : handle_msg { s with op_count := some (n + 1) } c2
      (.ok (mkReq "reset" (.dict [("session_id", .str sid)]))) =
      .ok ({ result := some (.dict [("obs", obs), ("session_id", .str sid)]), error := none },
           { s with op_count := some (n + 1 + 1) }) := by
    rw [handle_msg_eq_dispatch ({ s with op_count := some (n + 1) }) c2 "reset" _ (n + 1) rfl]
    have hcs : check_session { s with op_count := some (n + 1 + 1) }
        (.dict [("session_id", .str sid)]) = .ok sid :=
      check_session_right _ sid _ hsid rfl
    rw [henv] at hcs
    simp [dispatch, handle_reset, hcs, get_env, henv, hreset,
          Bind.bind, Except.bind, pure, Except.pure]
  simp [run_main_steps, h1, h2]

/-- Witness for C8 at the concrete state `s_bad`, whose environment raises
on `step` but resets fine. -/
theorem C8_failure_isolation_witness :
    run_main_steps s_bad
      [("ck1", .ok (mkReq "step" (.dict [("session_id", .str "abc123"), ("action", .int 0)]))),
       ("ck2", .ok (mkReq "reset" (.dict [("session_id", .str "abc123")])))] =
      .running { s_bad with op_count := some (0 + 1 + 1) }
        [{ result := none, error := some (format_exc ⟨"ValueError", "env step failed"⟩) },
         { result := some (.dict [("obs", .int 0), ("session_id", .str "abc123")]), error := none }] :=
  C8_failure_isolation s_bad env_bad "abc123" 0 (.int 0) (.int 0)
    ⟨"ValueError", "env step failed"⟩ "ck1" "ck2" rfl rfl rfl rfl rfl

/-- A concrete external environment binding no variables. -/
def environ_empty : String → Option String := fun _ => none

/-- A server oracle that is never consulted in the C9 scenario. -/
def srv_unused : RpcRequest → RpcReply := fun _ => { result := none, error := none }

/-- C9: on a URL whose `$NAME` token is unbound, `GymProxyClient.__init__`
logs the warning — but then `expand_env` returns Python `None` instead of
an empty string, so `re.sub` raises `TypeError` and construction fails
before any request is sent.  The spec's intended behaviour (substitute an
empty value and proceed) is not what the code does: the warning shows the
warn-and-continue intent, making the `return ret` of `None` a slip. -/
theorem C9_unresolved_ref_raises :
    (clientInit environ_empty "tcp://$UNDEFINEDHOST:6911" srv_unused (.dict [])).warnings =
      ["No environment var $UNDEFINEDHOST defined"]
    ∧ (clientInit environ_empty "tcp://$UNDEFINEDHOST:6911" srv_unused (.dict [])).outcome =
        .error ⟨"TypeError", "expected string, NoneType found"⟩
    ∧ (clientInit environ_empty "tcp://$UNDEFINEDHOST:6911" srv_unused (.dict [])).requests = [] :=
  ⟨rfl, rfl, rfl⟩

/-- The client-side reset raises with the server's error string when the
reset reply is an error reply. -/
theorem client_reset_error_reply (srv : RpcRequest → RpcReply) (st : ClientState) (err : String)
    (herr : (srv ⟨"reset", .dict [("session_id", st.session_id)]⟩).error = some err) :
    client_reset srv st = .error ⟨"Exception", err⟩ := by
  simp [client_reset, client_rpc, herr, Bind.bind, Except.bind]

/-- The client-side reset raises "Wrong session id" when the reset reply
carries a session id different from the stored one. -/
theorem client_reset_wrong_sid (srv : RpcRequest → RpcReply) (st : ClientState) (ret v : Value)
    (hret : srv ⟨"reset", .dict [("session_id", st.session_id)]⟩ = { result := some ret, error := none })
    (hv : pyGetItem ret "session_id" = .ok v) (hne : v ≠ st.session_id) :
    client_reset srv st = .error ⟨"Exception", "Wrong session id"⟩ := by
  simp [client_reset, client_rpc, hret, hv, hne, Bind.bind, Except.bind]

/-- C10: constructing the client issues `setup`, and — when the setup
reply's `reward_range` survives the `tuple(...)` conversion — immediately
a `reset` carrying the session id from the setup reply; construction then
fails when that reset returns an error reply, or when the reset reply's
session id differs from the one setup returned.  When `tuple(...)` raises
(non-iterable `reward_range`), construction fails before any reset is
sent. -/
theorem C10_init_setup_then_reset (environ : String → Option String) (srv : RpcRequest → RpcReply)
    (kwargs aspace ospace rrange sidv : Value)
    (hsetup : srv ⟨"setup", kwargs⟩ =
      { result := some (.dict [("action_space", aspace), ("observation_space", ospace),
                               ("reward_range", rrange), ("session_id", sidv)]),
        error := none }) :
    (∀ rtup : Value, pyTuple rrange = .ok rtup →
      (clientInit environ "tcp://127.0.0.1:6911" srv kwargs).requests =
        [⟨"setup", kwargs⟩, ⟨"reset", .dict [("session_id", sidv)]⟩]
      ∧ (∀ err, (srv ⟨"reset", .dict [("session_id", sidv)]⟩).error = some err →
          (clientInit environ "tcp://127.0.0.1:6911" srv kwargs).outcome = .error ⟨"Exception", err⟩)
      ∧ (∀ (ret v : Value), srv ⟨"reset", .dict [("session_id", sidv)]⟩ =
            { result := some ret, error := none } →
          pyGetItem ret "session_id" = .ok v → v ≠ sidv →
          (clientInit environ "tcp://127.0.0.1:6911" srv kwargs).outcome =
            .error ⟨"Exception", "Wrong session id"⟩))
    ∧ (∀ exc : PyExc, pyTuple rrange = .error exc →
        (clientInit environ "tcp://127.0.0.1:6911" srv kwargs).requests = [⟨"setup", kwargs⟩]
        ∧ (clientInit environ "tcp://127.0.0.1:6911" srv kwargs).outcome = .error exc) := by
  have hexp : re_sub_env environ (scanUrl "tcp://127.0.0.1:6911") =
      ([], .ok "tcp://127.0.0.1:6911") := rfl
  refine ⟨?_, ?_⟩
  · intro rtup hiter
    refine ⟨?_, ?_, ?_⟩
    · simp [clientInit, hexp, client_rpc, hsetup, env_reset, hiter, pyGetItem, List.lookup,
            Bind.bind, Except.bind, pure, Except.pure]
      cases hcr : client_reset srv ⟨aspace, ospace, rtup, sidv⟩ <;> simp
    · intro err herr
      have hcr : client_reset srv ⟨aspace, ospace, rtup, sidv⟩ = .error ⟨"Exception", err⟩ :=
        client_reset_error_reply srv _ err herr
      simp [clientInit, hexp, client_rpc, hsetup, env_reset, hiter, hcr, pyGetItem, List.lookup,
            Bind.bind, Except.bind, pure, Except.pure]
    · intro ret v hret hv hne
      have hcr : client_reset srv ⟨aspace, ospace, rtup, sidv⟩ =
          .error ⟨"Exception", "Wrong session id"⟩ :=
        client_reset_wrong_sid srv _ ret v hret hv hne
      simp [clientInit, hexp, client_rpc, hsetup, env_reset, hiter, hcr, pyGetItem, List.lookup,
            Bind.bind, Except.bind, pure, Except.pure]
  · intro exc hexc
    constructor <;>
      simp [clientInit, hexp, client_rpc, hsetup, hexc, pyGetItem, List.lookup,
            Bind.bind, Except.bind, pure, Except.pure]

/-- A concrete server oracle for the C10 witness: a well-formed setup
reply, then an error reply for everything else. -/
def srv10 : RpcRequest → RpcReply := fun r =>
  if r.method = "setup" then
    { result := some (.dict [("action_space", .str "A"), ("observation_space", .str "O"),
                             ("reward_range", .list [.int 0, .int 1]), ("session_id", .str "s1")]),
      error := none }
  else { result := none, error := some "reset refused" }

/-- A concrete server oracle whose setup reply carries a non-iterable
`reward_range`, so `tuple(...)` raises during construction. -/
def srv10b : RpcRequest → RpcReply := fun r =>
  if r.method = "setup" then
    { result := some (.dict [("action_space", .str "A"), ("observation_space", .str "O"),
                             ("reward_range", .int 5), ("session_id", .str "s1")]),
      error := none }
  else { result := none, error := some "reset refused" }

/-- Witness for C10: against `srv10` the constructor sends setup then
reset and fails with the reset's error; against `srv10b` the `tuple()`
conversion raises and no reset is ever sent. -/
theorem C10_init_setup_then_reset_witness :
    (clientInit environ_empty "tcp://127.0.0.1:6911" srv10 (.dict [("env_name", .str "Toy-v0")])).requests =
      [⟨"setup", .dict [("env_name", .str "Toy-v0")]⟩, ⟨"reset", .dict [("session_id", .str "s1")]⟩]
    ∧ (clientInit environ_empty "tcp://127.0.0.1:6911" srv10 (.dict [("env_name", .str "Toy-v0")])).outcome =
        .error ⟨"Exception", "reset refused"⟩
    ∧ (clientInit environ_empty "tcp://127.0.0.1:6911" srv10b (.dict [("env_name", .str "Toy-v0")])).requests =
        [⟨"setup", .dict [("env_name", .str "Toy-v0")]⟩]
    ∧ (clientInit environ_empty "tcp://127.0.0.1:6911" srv10b (.dict [("env_name", .str "Toy-v0")])).outcome =
        .error ⟨"TypeError", sq ++ "int" ++ sq ++ " object is not iterable"⟩ := by
  obtain ⟨hok, _⟩ :=
    C10_init_setup_then_reset environ_empty srv10 (.dict [("env_name", .str "Toy-v0")])
      (.str "A") (.str "O") (.list [.int 0, .int 1]) (.str "s1") rfl
  obtain ⟨h1, h2, _⟩ := hok (.list [.int 0, .int 1]) rfl
  obtain ⟨_, hbad⟩ :=
    C10_init_setup_then_reset environ_empty srv10b (.dict [("env_name", .str "Toy-v0")])
      (.str "A") (.str "O") (.int 5) (.str "s1") rfl
  obtain ⟨h3, h4⟩ := hbad ⟨"TypeError", sq ++ "int" ++ sq ++ " object is not iterable"⟩ rfl
  exact ⟨h1, h2 "reset refused" rfl, h3, h4⟩

end GymProxy
